import Mathlib

/-!
# Verification of the node-infobip authorization / error-normalization core

Shallow embedding of the `kosinix/node-infobip` client library.  JavaScript
values are modelled by the inductive `JsVal` (with JS truthiness and string
interpolation), the axios client by the header triple it is configured with,
and each service wrapper method by a pure function from the instance state and
the (default-applied) arguments to
`(Except JsVal HttpReq) × instance-state`: an `.ok req` result means the
method issues exactly the single HTTP request `req` (and would return the
decoded response body), while an `.error e` result means the method throws the
value `e` to the caller and issues no HTTP request.  The returned state
component is the instance after the call (the endpoint methods never assign
to `this`, so it always equals the input state; the translation makes that an
explicit, checkable fact).
-/

/-- Model of a JavaScript value, as far as this library inspects one:
primitives, and objects as association lists of fields with a marker telling
whether the object is an `Error` instance (`instanceof Error`). -/
inductive JsVal where
  | undefined
  | null
  | boolean (b : Bool)
  | num (n : Int)
  | str (s : String)
  | obj (isErr : Bool) (fields : List (String × JsVal))

/-- JS truthiness: `undefined`, `null`, `false`, `0` and `""` are falsy;
every object is truthy. -/
def truthy : JsVal → Bool
  | .undefined => false
  | .null => false
  | .boolean b => b
  | .num n => n != 0
  | .str s => s != ""
  | .obj _ _ => true

/-- Field access `v.k`: `undefined` when the field is absent or the value is
not an object (the library only ever reads fields of objects it has already
found truthy, so no TypeError path is needed). -/
def JsVal.getF : JsVal → String → JsVal
  | .obj _ fields, k => (fields.lookup k).getD .undefined
  | _, _ => .undefined

/-- `v instanceof Error`. -/
def JsVal.isError : JsVal → Bool
  | .obj e _ => e
  | _ => false

/-- String interpolation `${v}` of a value into a template literal. -/
def jsToString : JsVal → String
  | .undefined => "undefined"
  | .null => "null"
  | .boolean b => if b then "true" else "false"
  | .num n => toString n
  | .str s => s
  | .obj _ _ => "[object Object]"

/-- JS default-parameter application: a parameter declared `p = dflt` is
initialized to `dflt` whenever the supplied argument is `undefined`, whether
the argument was omitted or `undefined` was passed explicitly. -/
def jsDefault (dflt : JsVal) : JsVal → JsVal
  | .undefined => dflt
  | v => v

/-- `new Error(msg)`: an `Error` instance carrying only a message. -/
def jsError (msg : String) : JsVal :=
  .obj true [("message", .str msg)]

/-- The `'Unauthorized API call.'` error every service method throws when no
client is attached. -/
def unauthorizedError : JsVal := jsError "Unauthorized API call."

/-- The `'Invalid authorization type.'` error thrown for an unrecognized
authorization kind. -/
def invalidAuthTypeError : JsVal := jsError "Invalid authorization type."

/-- `helpers.trimError` (identical copy in `index.js`): reduce an axios
failure to its most useful payload. -/
def trimError (error : JsVal) : JsVal :=
  if error.isError then
    if truthy (error.getF "response") then
      if truthy ((error.getF "response").getF "data") then
        (error.getF "response").getF "data"
      else
        error.getF "response"
    else if truthy (error.getF "request") then
      error.getF "request"
    else
      error
  else
    error

/-! ## Base64 (model of `Buffer.from(s).toString('base64')`) -/

/-- The standard base64 alphabet. -/
def base64Alphabet : List Char :=
  "ABCDEFGHIJKLMNOPQRSTUVWXYZabcdefghijklmnopqrstuvwxyz0123456789+/".toList

/-- The base64 digit for a 6-bit value. -/
def b64Digit (n : Nat) : Char := base64Alphabet.getD n 'A'

/-- Standard base64 of a byte sequence, with `=` padding. -/
def base64EncodeBytes : List Nat → String
  | [] => ""
  | [b1] =>
    ⟨[b64Digit (b1 / 4), b64Digit (b1 % 4 * 16), '=', '=']⟩
  | [b1, b2] =>
    ⟨[b64Digit (b1 / 4), b64Digit (b1 % 4 * 16 + b2 / 16), b64Digit (b2 % 16 * 4), '=']⟩
  | b1 :: b2 :: b3 :: rest =>
    ⟨[b64Digit (b1 / 4), b64Digit (b1 % 4 * 16 + b2 / 16),
      b64Digit (b2 % 16 * 4 + b3 / 64), b64Digit (b3 % 64)]⟩ ++ base64EncodeBytes rest

/-- The UTF-8 encoding of one character, as a byte list. -/
def utf8Bytes (c : Char) : List Nat :=
  let n := c.toNat
  if n < 0x80 then [n]
  else if n < 0x800 then [0xC0 + n / 64, 0x80 + n % 64]
  else if n < 0x10000 then [0xE0 + n / 4096, 0x80 + n / 64 % 64, 0x80 + n % 64]
  else [0xF0 + n / 262144, 0x80 + n / 4096 % 64, 0x80 + n / 64 % 64, 0x80 + n % 64]

/-- `Buffer.from(s).toString('base64')`: standard base64 of the UTF-8 bytes
of `s`. -/
def base64 (s : String) : String :=
  base64EncodeBytes (s.toList.flatMap utf8Bytes)

/-! ## Authorization component -/

/-- The state an axios instance is created with: the three base headers.
`axios.create({headers: {...}})` in the source. -/
structure AxiosClient where
  authorization : String
  contentType : String
  accept : String

/-- `Auth` (service/Auth.js): the credential. Only `authType` and the
(possibly base64-encoded) `tokenKeyOrUsername` are stored. -/
structure Auth where
  authType : String
  tokenKeyOrUsername : String

/-- The `Auth` constructor. Throws `invalidAuthTypeError` for a kind outside
`['App', 'Basic', 'IBSSO']`; for `'Basic'` the stored secret is
`base64 (username ++ ":" ++ password)`. -/
def Auth.construct (authType tokenKeyOrUsername : String) (password : String := "") :
    Except JsVal Auth :=
  if !(["App", "Basic", "IBSSO"].contains authType) then
    .error invalidAuthTypeError
  else if authType = "Basic" then
    .ok { authType := authType,
          tokenKeyOrUsername := base64 (tokenKeyOrUsername ++ ":" ++ password) }
  else
    .ok { authType := authType, tokenKeyOrUsername := tokenKeyOrUsername }

/-- `Auth.prototype.axios(contentType)`: derive a configured client. -/
def Auth.axios (a : Auth) (contentType : String) : AxiosClient :=
  let accept := if contentType = "xml" then "application/xml" else "application/json"
  { authorization := a.authType ++ " " ++ a.tokenKeyOrUsername,
    contentType := accept,
    accept := accept }

namespace Helpers

/-- `helpers.authorize(authType, tokenKeyOrUsername, password, contentType)`:
validate the kind, encode Basic credentials, and create the client. -/
def authorize (authType tokenKeyOrUsername : String)
    (password : String := "") (contentType : String := "json") :
    Except JsVal AxiosClient :=
  if !(["App", "Basic", "IBSSO"].contains authType) then
    .error invalidAuthTypeError
  else
    let tk := if authType = "Basic" then
        base64 (tokenKeyOrUsername ++ ":" ++ password)
      else tokenKeyOrUsername
    let accept := if contentType = "xml" then "application/xml" else "application/json"
    .ok { authorization := authType ++ " " ++ tk, contentType := accept, accept := accept }

end Helpers

/-! ## HTTP requests and service wrappers -/

/-- HTTP verb of an outbound request. -/
inductive HttpMethod where
  | get
  | post
  | put

/-- One outbound HTTP request: verb, fully interpolated URL, optional body. -/
structure HttpReq where
  method : HttpMethod
  url : String
  body : Option JsVal

/-- The result of one service-method call: either the thrown error value, or
the single HTTP request the method issues; paired with the instance state
after the call. -/
abbrev MethodResult (σ : Type) := (Except JsVal HttpReq) × σ

/-- `SMS` (service/SMS.js) instance state. -/
structure SMS where
  defaultFrom : JsVal
  baseUrl : String
  version : Int
  contentType : String
  axios : Option AxiosClient

/-- `SMS.prototype.single(to, text, from)`: throw `Unauthorized API call.`
when no client is attached (routed through `trimError` by the catch block),
fall back to `defaultFrom` when `from` is falsy, and POST
`{baseUrl}/sms/{version}/text/single` with body `{from, to, text}`. -/
def SMS.single (s : SMS) (to_ text : JsVal) (from_ : JsVal := .str "") : MethodResult SMS :=
  if s.axios.isNone then
    (.error (trimError unauthorizedError), s)
  else
    let from_ := if truthy from_ then from_ else s.defaultFrom
    (.ok { method := .post,
           url := s.baseUrl ++ "/sms/" ++ toString s.version ++ "/text/single",
           body := some (.obj false [("from", from_), ("to", to_), ("text", text)]) }, s)

/-- `SMS.prototype.getReportByMessageId(messageId)`: no presence check on
`messageId`; GET `{baseUrl}/sms/{version}/reports?messageId={messageId}`. -/
def SMS.getReportByMessageId (s : SMS) (messageId : JsVal) : MethodResult SMS :=
  if s.axios.isNone then
    (.error (trimError unauthorizedError), s)
  else
    (.ok { method := .get,
           url := s.baseUrl ++ "/sms/" ++ toString s.version ++
             "/reports?messageId=" ++ jsToString messageId,
           body := none }, s)

/-- `Settings` (service/Settings.js) instance state. -/
structure Settings where
  accountKey : String
  baseUrl : String
  version : Int
  contentType : String
  axios : Option AxiosClient

namespace Settings

/-- Base endpoint shared by the Settings methods:
`{baseUrl}/settings/{version}/accounts/{accountKey}/api-keys`. -/
def apiKeysBase (s : Settings) : String :=
  s.baseUrl ++ "/settings/" ++ toString s.version ++ "/accounts/" ++ s.accountKey ++ "/api-keys"

/-- `Settings.prototype.getApiKeys(enabled)`: optional `?enabled=` filter;
errors routed through `trimError`. -/
def getApiKeys (s : Settings) (enabled : JsVal := .str "") : MethodResult Settings :=
  if s.axios.isNone then
    (.error (trimError unauthorizedError), s)
  else
    let endPoint := apiKeysBase s
    let endPoint := if truthy enabled then endPoint ++ "?enabled=" ++ jsToString enabled
      else endPoint
    (.ok { method := .get, url := endPoint, body := none }, s)

/-- `Settings.prototype.getApiKey(key)`: requires `key`; errors routed
through `trimError`. -/
def getApiKey (s : Settings) (key : JsVal) : MethodResult Settings :=
  if s.axios.isNone then
    (.error (trimError unauthorizedError), s)
  else if !truthy key then
    (.error (trimError (jsError "Please provide a key.")), s)
  else
    (.ok { method := .get, url := apiKeysBase s ++ "/" ++ jsToString key, body := none }, s)

/-- `Settings.prototype.getApiKeyByPublicKey(key)`: requires `key`; no
try/catch, errors thrown directly. -/
def getApiKeyByPublicKey (s : Settings) (key : JsVal) : MethodResult Settings :=
  if s.axios.isNone then
    (.error unauthorizedError, s)
  else if !truthy key then
    (.error (jsError "Please provide a key."), s)
  else
    (.ok { method := .get, url := apiKeysBase s ++ "?publicApiKey=" ++ jsToString key,
           body := none }, s)

/-- `Settings.prototype.getApiKeyByName(name)`: requires `name`; no
try/catch. -/
def getApiKeyByName (s : Settings) (name : JsVal) : MethodResult Settings :=
  if s.axios.isNone then
    (.error unauthorizedError, s)
  else if !truthy name then
    (.error (jsError "Please provide a name."), s)
  else
    (.ok { method := .get, url := apiKeysBase s ++ "?name=" ++ jsToString name,
           body := none }, s)

/-- `Settings.prototype.newApiKey(params)`: requires `params`; POST; no
try/catch. -/
def newApiKey (s : Settings) (params : JsVal) : MethodResult Settings :=
  if s.axios.isNone then
    (.error unauthorizedError, s)
  else if !truthy params then
    (.error (jsError "Please provide params."), s)
  else
    (.ok { method := .post, url := apiKeysBase s, body := some params }, s)

/-- `Settings.prototype.updateApiKey(key, params)`: requires `key` and
`params`; PUT; no try/catch. -/
def updateApiKey (s : Settings) (key params : JsVal) : MethodResult Settings :=
  if s.axios.isNone then
    (.error unauthorizedError, s)
  else if !truthy key then
    (.error (jsError "Please provide a key."), s)
  else if !truthy params then
    (.error (jsError "Please provide params."), s)
  else
    (.ok { method := .put, url := apiKeysBase s ++ "/" ++ jsToString key,
           body := some params }, s)

end Settings

/-- `TwoFA` (service/TwoFA.js, current revision) instance state. The
constructor default for `version` is `2`. -/
structure TwoFA where
  baseUrl : String
  version : Int
  contentType : String
  axios : Option AxiosClient

namespace TwoFA

/-- `TwoFA.prototype.authorize(auth)`: attach the client derived from the
credential for this instance's content type. -/
def authorize (t : TwoFA) (auth : Auth) : TwoFA :=
  { t with axios := some (auth.axios t.contentType) }

/-- Per-call version resolution `if (!version) { version = this.version }`,
repeated verbatim in every TwoFA method. -/
def resolveVersion (t : TwoFA) (version : JsVal) : JsVal :=
  if !truthy version then .num t.version else version

/-- `TwoFA.prototype.getApps(version = 1)`: GET
`{baseUrl}/2fa/{version}/applications`; errors routed through `trimError`. -/
def getApps (t : TwoFA) (version : JsVal := .undefined) : MethodResult TwoFA :=
  let version := jsDefault (.num 1) version
  if t.axios.isNone then
    (.error (trimError unauthorizedError), t)
  else
    let version := resolveVersion t version
    (.ok { method := .get,
           url := t.baseUrl ++ "/2fa/" ++ jsToString version ++ "/applications",
           body := none }, t)

/-- `TwoFA.prototype.getApp(applicationId, version = 1)`: requires
`applicationId`; GET; errors routed through `trimError`. -/
def getApp (t : TwoFA) (applicationId : JsVal) (version : JsVal := .undefined) :
    MethodResult TwoFA :=
  let version := jsDefault (.num 1) version
  if t.axios.isNone then
    (.error (trimError unauthorizedError), t)
  else
    let version := resolveVersion t version
    if !truthy applicationId then
      (.error (trimError (jsError "Please provide an applicationId.")), t)
    else
      (.ok { method := .get,
             url := t.baseUrl ++ "/2fa/" ++ jsToString version ++ "/applications/" ++
               jsToString applicationId,
             body := none }, t)

/-- `TwoFA.prototype.newApp(params, version = 1)`: requires `params`; POST;
no try/catch. -/
def newApp (t : TwoFA) (params : JsVal) (version : JsVal := .undefined) : MethodResult TwoFA :=
  let version := jsDefault (.num 1) version
  if t.axios.isNone then
    (.error unauthorizedError, t)
  else
    let version := resolveVersion t version
    if !truthy params then
      (.error (jsError "Please provide params."), t)
    else
      (.ok { method := .post,
             url := t.baseUrl ++ "/2fa/" ++ jsToString version ++ "/applications",
             body := some params }, t)

/-- `TwoFA.prototype.updateApp(applicationId, params, version = 1)`: requires
`applicationId` and `params`; PUT; no try/catch. -/
def updateApp (t : TwoFA) (applicationId params : JsVal) (version : JsVal := .undefined) :
    MethodResult TwoFA :=
  let version := jsDefault (.num 1) version
  if t.axios.isNone then
    (.error unauthorizedError, t)
  else
    let version := resolveVersion t version
    if !truthy applicationId then
      (.error (jsError "Please provide an applicationId."), t)
    else if !truthy params then
      (.error (jsError "Please provide params."), t)
    else
      (.ok { method := .put,
             url := t.baseUrl ++ "/2fa/" ++ jsToString version ++ "/applications/" ++
               jsToString applicationId,
             body := some params }, t)

/-- `TwoFA.prototype.getMessageTemplates(applicationId, version = 1)`:
requires `applicationId`; GET; errors routed through `trimError`. -/
def getMessageTemplates (t : TwoFA) (applicationId : JsVal) (version : JsVal := .undefined) :
    MethodResult TwoFA :=
  let version := jsDefault (.num 1) version
  if t.axios.isNone then
    (.error (trimError unauthorizedError), t)
  else
    let version := resolveVersion t version
    if !truthy applicationId then
      (.error (trimError (jsError "Please provide an applicationId.")), t)
    else
      (.ok { method := .get,
             url := t.baseUrl ++ "/2fa/" ++ jsToString version ++ "/applications/" ++
               jsToString applicationId ++ "/messages",
             body := none }, t)

/-- `TwoFA.prototype.newMessageTemplate(applicationId, params, version = 1)`:
requires `applicationId` and `params`; POST; no try/catch. -/
def newMessageTemplate (t : TwoFA) (applicationId params : JsVal)
    (version : JsVal := .undefined) : MethodResult TwoFA :=
  let version := jsDefault (.num 1) version
  if t.axios.isNone then
    (.error unauthorizedError, t)
  else
    let version := resolveVersion t version
    if !truthy applicationId then
      (.error (jsError "Please provide an applicationId."), t)
    else if !truthy params then
      (.error (jsError "Please provide params."), t)
    else
      (.ok { method := .post,
             url := t.baseUrl ++ "/2fa/" ++ jsToString version ++ "/applications/" ++
               jsToString applicationId ++ "/messages",
             body := some params }, t)

/-- `TwoFA.prototype.updateMessageTemplate(applicationId, messageId, params,
version = 1)`: requires `applicationId`, `messageId`, `params`; PUT; no
try/catch. -/
def updateMessageTemplate (t : TwoFA) (applicationId messageId params : JsVal)
    (version : JsVal := .undefined) : MethodResult TwoFA :=
  let version := jsDefault (.num 1) version
  if t.axios.isNone then
    (.error unauthorizedError, t)
  else
    let version := resolveVersion t version
    if !truthy applicationId then
      (.error (jsError "Please provide an applicationId."), t)
    else if !truthy messageId then
      (.error (jsError "Please provide a messageId."), t)
    else if !truthy params then
      (.error (jsError "Please provide params."), t)
    else
      (.ok { method := .put,
             url := t.baseUrl ++ "/2fa/" ++ jsToString version ++ "/applications/" ++
               jsToString applicationId ++ "/messages/" ++ jsToString messageId,
             body := some params }, t)

/-- `TwoFA.prototype.sendPin(params, version = 1)`: requires `params`; POST
`{baseUrl}/2fa/{version}/pin`; no try/catch. -/
def sendPin (t : TwoFA) (params : JsVal) (version : JsVal := .undefined) : MethodResult TwoFA :=
  let version := jsDefault (.num 1) version
  if t.axios.isNone then
    (.error unauthorizedError, t)
  else
    let version := resolveVersion t version
    if !truthy params then
      (.error (jsError "Please provide params."), t)
    else
      (.ok { method := .post,
             url := t.baseUrl ++ "/2fa/" ++ jsToString version ++ "/pin",
             body := some params }, t)

/-- `TwoFA.prototype.resendPin(pinId, version = 1)`: requires `pinId`; POST
with no body; no try/catch. -/
def resendPin (t : TwoFA) (pinId : JsVal) (version : JsVal := .undefined) : MethodResult TwoFA :=
  let version := jsDefault (.num 1) version
  if t.axios.isNone then
    (.error unauthorizedError, t)
  else
    let version := resolveVersion t version
    if !truthy pinId then
      (.error (jsError "Please provide a pinId."), t)
    else
      (.ok { method := .post,
             url := t.baseUrl ++ "/2fa/" ++ jsToString version ++ "/pin/" ++
               jsToString pinId ++ "/resend",
             body := none }, t)

/-- `TwoFA.prototype.verifyPin(pinId, pin, version = 1)`: requires `pinId`
and `pin`; POST body `{pin}`; no try/catch. -/
def verifyPin (t : TwoFA) (pinId pin : JsVal) (version : JsVal := .undefined) :
    MethodResult TwoFA :=
  let version := jsDefault (.num 1) version
  if t.axios.isNone then
    (.error unauthorizedError, t)
  else
    let version := resolveVersion t version
    if !truthy pinId then
      (.error (jsError "Please provide a pinId."), t)
    else if !truthy pin then
      (.error (jsError "Please provide a pin."), t)
    else
      (.ok { method := .post,
             url := t.baseUrl ++ "/2fa/" ++ jsToString version ++ "/pin/" ++
               jsToString pinId ++ "/verify",
             body := some (.obj false [("pin", pin)]) }, t)

end TwoFA

/-- The earlier revision of `TwoFA` whose `authorize` takes the credential as
strings and delegates to `helpers.authorize`. -/
structure TwoFAv1 where
  baseUrl : String
  version : Int
  contentType : String
  axios : Option AxiosClient

/-- `TwoFA.prototype.authorize(authType, tokenKeyOrUsername, password)`
(earlier revision): `this.axios = authorize(...)`. When `helpers.authorize`
throws, the exception propagates before the assignment, so the instance is
returned unchanged alongside the error. -/
def TwoFAv1.authorize (t : TwoFAv1) (authType tokenKeyOrUsername : String)
    (password : String := "") : (Except JsVal Unit) × TwoFAv1 :=
  match Helpers.authorize authType tokenKeyOrUsername password t.contentType with
  | .error e => (.error e, t)
  | .ok client => (.ok (), { t with axios := some client })

/-! ## Concrete fixtures used by witnesses and counterexamples -/

/-- The client derived from the `App pk_abc` credential for `json`. -/
def client0 : AxiosClient :=
  { authorization := "App pk_abc",
    contentType := "application/json",
    accept := "application/json" }

/-- An authorized `TwoFA` instance with the constructor defaults
(`version = 2`, `contentType = 'json'`). -/
def twoFA0 : TwoFA :=
  { baseUrl := "https://api.infobip.com", version := 2, contentType := "json",
    axios := some client0 }

/-- An authorized `SMS` instance with the constructor defaults. -/
def sms0 : SMS :=
  { defaultFrom := .str "INFO", baseUrl := "https://api.infobip.com", version := 1,
    contentType := "json", axios := some client0 }

/-- An authorized `Settings` instance with the constructor defaults. -/
def settings0 : Settings :=
  { accountKey := "_", baseUrl := "https://api.infobip.com", version := 1,
    contentType := "json", axios := some client0 }

/-- An axios failure whose response has an empty (falsy) `data` field, the
shape axios produces for a non-2xx response with an empty body. -/
def respEmptyData : JsVal :=
  .obj false [("status", .num 500), ("data", .str "")]

/-- The `Error` instance carrying `respEmptyData` as its `response`. -/
def errRespEmptyData : JsVal :=
  .obj true [("message", .str "Request failed with status code 500"),
             ("response", respEmptyData)]

/-! ## Shared lemmas -/

/-- `trimError` is the identity on a locally constructed `new Error(msg)`
(no `response`, no `request`). -/
theorem trimError_jsError (msg : String) : trimError (jsError msg) = jsError msg := rfl

/-! ## C2: error normalization (`trimError`) -/

/-- C2 counterexample: a failure carrying a server response whose `data`
field is present but falsy (empty body, as axios produces) is reduced to the
response object, not to that data — so "data field is present ⟹ result is
exactly that data" fails as stated. -/
theorem trimError_present_empty_data_gives_response :
    errRespEmptyData.isError = true ∧
    errRespEmptyData.getF "response" = respEmptyData ∧
    respEmptyData.getF "data" = JsVal.str "" ∧
    trimError errRespEmptyData = respEmptyData ∧
    trimError errRespEmptyData ≠ respEmptyData.getF "data" := by
  refine ⟨rfl, rfl, rfl, rfl, ?_⟩
  rw [show trimError errRespEmptyData = respEmptyData from rfl,
      show respEmptyData.getF "data" = JsVal.str "" from rfl]
  simp [respEmptyData]

/-- C2 amended: `trimError` returns the response `data` when the failure is
an `Error` carrying a truthy `response` whose `data` field is truthy (not
merely present); the response object when `data` is falsy or absent; the
`request` object when there is no truthy response but a truthy request; and
the failure unchanged otherwise. It is the identity (hence idempotent) on
plain non-`Error` values, and it is a total function (never raises). -/
theorem trimError_normalization_cases (e : JsVal) :
    (e.isError = true → truthy (e.getF "response") = true →
      truthy ((e.getF "response").getF "data") = true →
      trimError e = (e.getF "response").getF "data") ∧
    (e.isError = true → truthy (e.getF "response") = true →
      truthy ((e.getF "response").getF "data") = false →
      trimError e = e.getF "response") ∧
    (e.isError = true → truthy (e.getF "response") = false →
      truthy (e.getF "request") = true → trimError e = e.getF "request") ∧
    (e.isError = true → truthy (e.getF "response") = false →
      truthy (e.getF "request") = false → trimError e = e) ∧
    (e.isError = false → trimError e = e) ∧
    (e.isError = false → trimError (trimError e) = trimError e) := by
  refine ⟨?_, ?_, ?_, ?_, ?_, ?_⟩ <;> intros <;> simp [trimError, *]

/-- C2 witness: the amended theorem applied at the concrete failure carrying
response body `{"code": 5}`. -/
theorem trimError_normalization_cases_witness :
    trimError (.obj true [("response", .obj false [("data", .obj false [("code", .num 5)])])]) =
      .obj false [("code", .num 5)] := by
  have h := (trimError_normalization_cases
    (.obj true [("response", .obj false [("data", .obj false [("code", .num 5)])])])).1
    rfl rfl rfl
  simpa [JsVal.getF] using h

/-! ## C1: TwoFA per-call version override -/

/-- C1 counterexample: on an authorized instance whose stored version is `2`
(the constructor default), calling `getApps()` with the version argument
*unset* (the argument is `undefined`, so the JS default parameter initializes
it to `1`, which is truthy) builds the path with `1`, not with the instance's
stored `apiVersion` — so "falsy **or unset** ⟹ instance's stored version"
fails as stated. -/
theorem twoFA_unset_version_not_instance_version :
    twoFA0.version = 2 ∧
    twoFA0.getApps =
      (.ok { method := .get, url := "https://api.infobip.com/2fa/1/applications",
             body := none }, twoFA0) ∧
    "https://api.infobip.com/2fa/1/applications" ≠
      "https://api.infobip.com/2fa/" ++ jsToString (.num twoFA0.version) ++ "/applications" := by
  refine ⟨rfl, rfl, ?_⟩
  decide

/-- C1 amended: in every TwoFA method taking a per-call version override, an
explicitly passed falsy override other than `undefined` (`''`, `0`, `null`,
`false`) falls back to the instance's stored `apiVersion`; a truthy override
is used for exactly that call; and an `undefined` override — whether the
argument is omitted or `undefined` is passed explicitly — triggers the
method's default parameter `1` (truthy) and therefore yields version `1`
regardless of the stored `apiVersion`. The instance state (in particular its
stored version) is unchanged after the call. -/
theorem twoFA_version_override_resolution (t : TwoFA) (c : AxiosClient)
    (appId msgId params pinId pin version : JsVal)
    (hax : t.axios = some c)
    (hApp : truthy appId = true) (hMsg : truthy msgId = true)
    (hPar : truthy params = true) (hPinId : truthy pinId = true)
    (hPin : truthy pin = true) :
    (version = .undefined → t.resolveVersion (jsDefault (.num 1) version) = .num 1) ∧
    (version ≠ .undefined → truthy version = false →
      t.resolveVersion (jsDefault (.num 1) version) = .num t.version) ∧
    (truthy version = true → t.resolveVersion (jsDefault (.num 1) version) = version) ∧
    t.getApps version =
      (.ok { method := .get,
             url := t.baseUrl ++ "/2fa/" ++
               jsToString (t.resolveVersion (jsDefault (.num 1) version)) ++
               "/applications", body := none }, t) ∧
    t.getApp appId version =
      (.ok { method := .get,
             url := t.baseUrl ++ "/2fa/" ++
               jsToString (t.resolveVersion (jsDefault (.num 1) version)) ++
               "/applications/" ++ jsToString appId, body := none }, t) ∧
    t.newApp params version =
      (.ok { method := .post,
             url := t.baseUrl ++ "/2fa/" ++
               jsToString (t.resolveVersion (jsDefault (.num 1) version)) ++
               "/applications", body := some params }, t) ∧
    t.updateApp appId params version =
      (.ok { method := .put,
             url := t.baseUrl ++ "/2fa/" ++
               jsToString (t.resolveVersion (jsDefault (.num 1) version)) ++
               "/applications/" ++ jsToString appId, body := some params }, t) ∧
    t.getMessageTemplates appId version =
      (.ok { method := .get,
             url := t.baseUrl ++ "/2fa/" ++
               jsToString (t.resolveVersion (jsDefault (.num 1) version)) ++
               "/applications/" ++ jsToString appId ++ "/messages", body := none }, t) ∧
    t.newMessageTemplate appId params version =
      (.ok { method := .post,
             url := t.baseUrl ++ "/2fa/" ++
               jsToString (t.resolveVersion (jsDefault (.num 1) version)) ++
               "/applications/" ++ jsToString appId ++ "/messages",
             body := some params }, t) ∧
    t.updateMessageTemplate appId msgId params version =
      (.ok { method := .put,
             url := t.baseUrl ++ "/2fa/" ++
               jsToString (t.resolveVersion (jsDefault (.num 1) version)) ++
               "/applications/" ++ jsToString appId ++ "/messages/" ++ jsToString msgId,
             body := some params }, t) ∧
    t.sendPin params version =
      (.ok { method := .post,
             url := t.baseUrl ++ "/2fa/" ++
               jsToString (t.resolveVersion (jsDefault (.num 1) version)) ++ "/pin",
             body := some params }, t) ∧
    t.resendPin pinId version =
      (.ok { method := .post,
             url := t.baseUrl ++ "/2fa/" ++
               jsToString (t.resolveVersion (jsDefault (.num 1) version)) ++
               "/pin/" ++ jsToString pinId ++ "/resend", body := none }, t) ∧
    t.verifyPin pinId pin version =
      (.ok { method := .post,
             url := t.baseUrl ++ "/2fa/" ++
               jsToString (t.resolveVersion (jsDefault (.num 1) version)) ++
               "/pin/" ++ jsToString pinId ++ "/verify",
             body := some (.obj false [("pin", pin)]) }, t) := by
  have hjd : version ≠ JsVal.undefined → jsDefault (.num 1) version = version := by
    cases version <;> simp [jsDefault]
  refine ⟨?_, ?_, ?_, ?_, ?_, ?_, ?_, ?_, ?_, ?_, ?_, ?_, ?_⟩
  · intro h
    subst h
    simp [jsDefault, TwoFA.resolveVersion, truthy]
  · intro h hf
    rw [hjd h]
    simp [TwoFA.resolveVersion, hf]
  · intro htr
    have hne : version ≠ JsVal.undefined := by
      intro e
      subst e
      simp [truthy] at htr
    rw [hjd hne]
    simp [TwoFA.resolveVersion, htr]
  all_goals
    simp [TwoFA.getApps, TwoFA.getApp, TwoFA.newApp, TwoFA.updateApp,
          TwoFA.getMessageTemplates, TwoFA.newMessageTemplate, TwoFA.updateMessageTemplate,
          TwoFA.sendPin, TwoFA.resendPin, TwoFA.verifyPin,
          hax, hApp, hMsg, hPar, hPinId, hPin]

/-- C1 witness: the amended theorem applied at `twoFA0` (stored version `2`)
with the explicitly passed falsy, non-`undefined` override `''`, which
resolves to the stored version `2`. -/
theorem twoFA_version_override_resolution_witness :
    TwoFA.getApps twoFA0 (.str "") =
      (.ok { method := .get, url := "https://api.infobip.com/2fa/2/applications",
             body := none }, twoFA0) := by
  have h := (twoFA_version_override_resolution twoFA0 client0
    (.str "A") (.str "M") (.obj false []) (.str "P") (.str "1234") (.str "")
    rfl rfl rfl rfl rfl rfl).2.2.2.1
  simpa [twoFA0, TwoFA.resolveVersion, jsDefault, truthy, jsToString] using h

/-! ## C3: local precondition failures surface unnormalized -/

/-- C3: `trimError` is the identity on every locally constructed plain error,
so the `Unauthorized` and `MissingParameter` errors reach the caller as the
originally thrown value even in methods whose catch block routes all errors
through `trimError` (`SMS.single`, `Settings.getApiKey` and `TwoFA.getApp`
shown, one per service). -/
theorem local_precondition_errors_unnormalized (msg : String)
    (s : SMS) (st : Settings) (t : TwoFA) (c c' : AxiosClient)
    (to_ text from_ key appId v : JsVal)
    (hs : s.axios = none)
    (hst : st.axios = some c) (hkey : truthy key = false)
    (ht : t.axios = some c') (happ : truthy appId = false) :
    trimError (jsError msg) = jsError msg ∧
    s.single to_ text from_ = (.error unauthorizedError, s) ∧
    st.getApiKey key = (.error (jsError "Please provide a key."), st) ∧
    t.getApp appId v = (.error (jsError "Please provide an applicationId."), t) := by
  refine ⟨trimError_jsError msg, ?_, ?_, ?_⟩ <;>
    simp [SMS.single, Settings.getApiKey, TwoFA.getApp, TwoFA.resolveVersion,
          hs, hst, hkey, ht, happ, trimError_jsError, unauthorizedError]

/-- C3 witness: an unauthorized `SMS.single` call surfaces exactly the
`Unauthorized API call.` error value. -/
theorem local_precondition_errors_unnormalized_witness :
    SMS.single { sms0 with axios := none } (.str "631234567890") (.str "Hello there!")
        (.str "") =
      (.error unauthorizedError, { sms0 with axios := none }) :=
  (local_precondition_errors_unnormalized "m" { sms0 with axios := none } settings0 twoFA0
    client0 client0 (.str "631234567890") (.str "Hello there!") (.str "") (.str "")
    (.str "") (.num 1) rfl rfl rfl rfl rfl).2.1

/-! ## C4: every method fails with Unauthorized before authorize -/

/-- C4: on an instance whose attached client is `null`, every endpoint method
of `SMS`, `Settings` and `TwoFA` returns the `Unauthorized API call.` error
for all argument values, issues no HTTP request (the result is `.error`, and
only `.ok` results model an issued request), and leaves the instance
unchanged. -/
theorem unauthorized_before_authorize (s : SMS) (st : Settings) (t : TwoFA)
    (a b c v : JsVal)
    (hs : s.axios = none) (hst : st.axios = none) (ht : t.axios = none) :
    s.single a b c = (.error unauthorizedError, s) ∧
    s.getReportByMessageId a = (.error unauthorizedError, s) ∧
    st.getApiKeys a = (.error unauthorizedError, st) ∧
    st.getApiKey a = (.error unauthorizedError, st) ∧
    st.getApiKeyByPublicKey a = (.error unauthorizedError, st) ∧
    st.getApiKeyByName a = (.error unauthorizedError, st) ∧
    st.newApiKey a = (.error unauthorizedError, st) ∧
    st.updateApiKey a b = (.error unauthorizedError, st) ∧
    t.getApps v = (.error unauthorizedError, t) ∧
    t.getApp a v = (.error unauthorizedError, t) ∧
    t.newApp a v = (.error unauthorizedError, t) ∧
    t.updateApp a b v = (.error unauthorizedError, t) ∧
    t.getMessageTemplates a v = (.error unauthorizedError, t) ∧
    t.newMessageTemplate a b v = (.error unauthorizedError, t) ∧
    t.updateMessageTemplate a b c v = (.error unauthorizedError, t) ∧
    t.sendPin a v = (.error unauthorizedError, t) ∧
    t.resendPin a v = (.error unauthorizedError, t) ∧
    t.verifyPin a b v = (.error unauthorizedError, t) := by
  refine ⟨?_, ?_, ?_, ?_, ?_, ?_, ?_, ?_, ?_, ?_, ?_, ?_, ?_, ?_, ?_, ?_, ?_, ?_⟩ <;>
    simp [SMS.single, SMS.getReportByMessageId, Settings.getApiKeys, Settings.getApiKey,
          Settings.getApiKeyByPublicKey, Settings.getApiKeyByName, Settings.newApiKey,
          Settings.updateApiKey, TwoFA.getApps, TwoFA.getApp, TwoFA.newApp, TwoFA.updateApp,
          TwoFA.getMessageTemplates, TwoFA.newMessageTemplate, TwoFA.updateMessageTemplate,
          TwoFA.sendPin, TwoFA.resendPin, TwoFA.verifyPin,
          hs, hst, ht, trimError_jsError, unauthorizedError]

/-- C4 witness: `getApiKeys` on an unauthorized `Settings` instance, with an
argument supplied, fails with the `Unauthorized` error. -/
theorem unauthorized_before_authorize_witness :
    Settings.getApiKeys { settings0 with axios := none } (.str "true") =
      (.error unauthorizedError, { settings0 with axios := none }) :=
  (unauthorized_before_authorize { sms0 with axios := none }
    { settings0 with axios := none } { twoFA0 with axios := none }
    (.str "true") (.str "b") (.str "c") (.num 1) rfl rfl rfl).2.2.1

/-! ## C5: derived client headers -/

/-- C5: for any credential and response format, the derived client's
`Authorization` header is the kind name, one space, and the stored (possibly
base64-encoded) secret; `xml` yields `application/xml` for both `Content-Type`
and `Accept` and any other format yields `application/json`; and the concrete
`App pk_abc` / `json` scenario produces exactly the headers
`{Authorization: "App pk_abc", Content-Type: "application/json",
Accept: "application/json"}`. -/
theorem deriveClient_headers (a : Auth) (ct : String) :
    (a.axios ct).authorization = a.authType ++ " " ++ a.tokenKeyOrUsername ∧
    (a.axios ct).contentType =
      (if ct = "xml" then "application/xml" else "application/json") ∧
    (a.axios ct).accept =
      (if ct = "xml" then "application/xml" else "application/json") ∧
    Auth.construct "App" "pk_abc" =
      .ok { authType := "App", tokenKeyOrUsername := "pk_abc" } ∧
    Auth.axios { authType := "App", tokenKeyOrUsername := "pk_abc" } "json" = client0 :=
  ⟨rfl, rfl, rfl, rfl, rfl⟩

/-! ## C6: Basic credential stores base64(username:password) -/

/-- C6: constructing a `Basic` credential stores as its secret exactly the
standard base64 encoding of `username:password`; the credential has no other
field than the kind and that encoded secret (so the raw password is not
retained separately); and for username `"u"`, password `"p"` the stored
secret is `base64 "u:p" = "dTpw"`. -/
theorem basic_secret_is_base64 (u p : String) :
    Auth.construct "Basic" u p =
      .ok { authType := "Basic", tokenKeyOrUsername := base64 (u ++ ":" ++ p) } ∧
    (∀ a : Auth, a = { authType := a.authType, tokenKeyOrUsername := a.tokenKeyOrUsername }) ∧
    base64 "u:p" = "dTpw" ∧
    Auth.construct "Basic" "u" "p" = .ok { authType := "Basic", tokenKeyOrUsername := "dTpw" } :=
  ⟨rfl, fun _ => rfl, rfl, rfl⟩

/-! ## C7: unrecognized authorization kind is rejected -/

/-- C7: for any kind outside `['App', 'Basic', 'IBSSO']` and any secrets, the
`Auth` constructor, the shared `helpers.authorize`, and the string-based
service-level `authorize` (earlier `TwoFA` revision) all fail with the
`Invalid authorization type.` error; no credential is produced, and the
service instance — in particular its attached client — is unchanged. -/
theorem invalid_kind_rejected (kind u p ct : String) (t : TwoFAv1)
    (hk : (["App", "Basic", "IBSSO"].contains kind) = false) :
    Auth.construct kind u p = .error invalidAuthTypeError ∧
    Helpers.authorize kind u p ct = .error invalidAuthTypeError ∧
    t.authorize kind u p = (.error invalidAuthTypeError, t) := by
  obtain ⟨h1, h2, h3⟩ : ¬kind = "App" ∧ ¬kind = "Basic" ∧ ¬kind = "IBSSO" := by
    simpa using hk
  refine ⟨?_, ?_, ?_⟩ <;>
    simp [Auth.construct, Helpers.authorize, TwoFAv1.authorize, h1, h2, h3]

/-- C7 witness: constructing a credential with kind `"OAuth"` fails with the
`Invalid authorization type.` error. -/
theorem invalid_kind_rejected_witness :
    Auth.construct "OAuth" "secret" "x" = .error invalidAuthTypeError :=
  (invalid_kind_rejected "OAuth" "secret" "x" "json"
    { baseUrl := "https://api.infobip.com", version := 2, contentType := "json",
      axios := none } rfl).1

/-! ## C8: SMS.single sender-ID fallback and frame -/

/-- C8: on an authorized `SMS` instance, `single` posts
`{baseUrl}/sms/{version}/text/single` with body field `from` equal to the
instance's stored `defaultFrom` when the `from` argument is falsy
(empty/absent) and equal to the argument when it is truthy; the instance
state — `defaultFrom`, `baseUrl`, `version`, `contentType` — is unchanged
after the call (the returned state is the input instance). -/
theorem sms_single_from_fallback (s : SMS) (c : AxiosClient) (to_ text from_ : JsVal)
    (hax : s.axios = some c) :
    s.single to_ text from_ =
      (.ok { method := .post,
             url := s.baseUrl ++ "/sms/" ++ toString s.version ++ "/text/single",
             body := some (.obj false
               [("from", if truthy from_ then from_ else s.defaultFrom),
                ("to", to_), ("text", text)]) }, s) ∧
    (truthy from_ = false →
      s.single to_ text from_ =
        (.ok { method := .post,
               url := s.baseUrl ++ "/sms/" ++ toString s.version ++ "/text/single",
               body := some (.obj false
                 [("from", s.defaultFrom), ("to", to_), ("text", text)]) }, s)) ∧
    (truthy from_ = true →
      s.single to_ text from_ =
        (.ok { method := .post,
               url := s.baseUrl ++ "/sms/" ++ toString s.version ++ "/text/single",
               body := some (.obj false
                 [("from", from_), ("to", to_), ("text", text)]) }, s)) := by
  refine ⟨by simp [SMS.single, hax], ?_, ?_⟩
  · intro h
    simp [SMS.single, hax, h]
  · intro h
    simp [SMS.single, hax, h]

/-- C8 witness: `single` on `sms0` with an empty `from` sends
`from = "INFO"` (the stored default) and returns the instance unchanged. -/
theorem sms_single_from_fallback_witness :
    SMS.single sms0 (.str "631234567890") (.str "Hello there!") (.str "") =
      (.ok { method := .post,
             url := "https://api.infobip.com/sms/1/text/single",
             body := some (.obj false
               [("from", .str "INFO"), ("to", .str "631234567890"),
                ("text", .str "Hello there!")]) }, sms0) := by
  have h := (sms_single_from_fallback sms0 client0 (.str "631234567890")
    (.str "Hello there!") (.str "") rfl).2.1 rfl
  simpa [sms0] using h

/-! ## C9: Content-Type always equals Accept -/

/-- C9: every client derived from a credential (via `Auth.axios` or via
`helpers.authorize`) has its `Content-Type` header equal to its `Accept`
header, for every credential and every response-format value. -/
theorem content_type_always_equals_accept (a : Auth) (ct kind u p : String)
    (c : AxiosClient)
    (h : Helpers.authorize kind u p ct = .ok c) :
    (a.axios ct).contentType = (a.axios ct).accept ∧ c.contentType = c.accept := by
  refine ⟨rfl, ?_⟩
  unfold Helpers.authorize at h
  split at h
  · simp at h
  · simp only [Except.ok.injEq] at h
    subst h
    rfl

/-- C9 witness: the client derived by `helpers.authorize` from the
`App pk_abc` credential for `json` has equal `Content-Type` and `Accept`. -/
theorem content_type_always_equals_accept_witness :
    client0.contentType = client0.accept :=
  (content_type_always_equals_accept { authType := "App", tokenKeyOrUsername := "pk_abc" }
    "json" "App" "pk_abc" "" client0 rfl).2

/-! ## C10: getReportByMessageId has no presence check -/

/-- C10: on an authorized `SMS` instance, `getReportByMessageId` performs no
presence check on `messageId`: for every value, including the empty string,
it issues the GET request with the value interpolated into the query string —
in contrast to `Settings.getApiKey` and `TwoFA.getApp`, which reject an empty
required argument with a `MissingParameter` error. -/
theorem getReportByMessageId_no_presence_check (s : SMS) (st : Settings) (t : TwoFA)
    (c c' c'' : AxiosClient) (messageId v : JsVal)
    (hax : s.axios = some c) (hst : st.axios = some c') (ht : t.axios = some c'') :
    s.getReportByMessageId messageId =
      (.ok { method := .get,
             url := s.baseUrl ++ "/sms/" ++ toString s.version ++ "/reports?messageId=" ++
               jsToString messageId, body := none }, s) ∧
    st.getApiKey (.str "") = (.error (jsError "Please provide a key."), st) ∧
    t.getApp (.str "") v = (.error (jsError "Please provide an applicationId."), t) := by
  refine ⟨?_, ?_, ?_⟩ <;>
    simp [SMS.getReportByMessageId, Settings.getApiKey, TwoFA.getApp, TwoFA.resolveVersion,
          hax, hst, ht, truthy, trimError_jsError]

/-- C10 witness: `getReportByMessageId` on `sms0` with an empty `messageId`
issues the GET request with the empty value interpolated at the end of the
query string. -/
theorem getReportByMessageId_no_presence_check_witness :
    SMS.getReportByMessageId sms0 (.str "") =
      (.ok { method := .get,
             url := "https://api.infobip.com/sms/1/reports?messageId=",
             body := none }, sms0) := by
  have h := (getReportByMessageId_no_presence_check sms0 settings0 twoFA0
    client0 client0 client0 (.str "") (.num 1) rfl rfl rfl).1
  simpa [sms0, jsToString] using h
